import Mathlib

/-!
Shallow embedding of the `spin-sleep` crate (`src/lib.rs`, `src/loop_helper.rs`,
`util/src/interval.rs`, `util/src/report.rs`).

Conventions of the embedding:
* A Rust `Instant` and a Rust `Duration` are both modelled as a natural number
  of nanoseconds.  `Instant::duration_since` / `Instant::elapsed` saturate at
  zero in Rust, which truncated natural subtraction models exactly.
* The monotonic clock is modelled as a stream `time : ℕ → ℕ` of successive
  clock readings (in nanoseconds); reading `0` is the reading taken at the
  start of the call (`let start = Instant::now()`).
* `f64` values reachable in the code paths under study are modelled exactly:
  the rate passed to `build_with_target_rate` is either a finite rational or
  the IEEE infinity (`1.0 / inf = 0.0` exactly), and the seconds argument of
  `sleep_s` is either a finite rational or a NaN (`nan > 0.0` is false).
  `f64` division results reported by the rate reporters are modelled as exact
  rational division; the claims under study concern branch selection and
  state resets, not `f64` rounding error.
* Rust code that can panic is modelled with `Option`: `none` is a panic (or,
  for the sleep helpers, "the underlying call is not made").
-/

namespace SpinSleep

/-! ## `SpinSleeper` (src/lib.rs) -/

/-- `SpinSleeper { native_accuracy_ns: u32 }` from src/lib.rs.  The field is a
`u32` in Rust; its numeric value is embedded as a natural. -/
structure SpinSleeper where
  native_accuracy_ns : ℕ
  deriving DecidableEq, Repr

/-- The non-Windows `DEFAULT_NATIVE_SLEEP_ACCURACY` constant (125_000 ns). -/
def DEFAULT_NATIVE_SLEEP_ACCURACY : ℕ := 125000

/-- `SpinSleeper::default()` on non-Windows: `SpinSleeper::new(125_000)`. -/
def SpinSleeper.default : SpinSleeper :=
  ⟨DEFAULT_NATIVE_SLEEP_ACCURACY⟩

/-- The native-sleep portion of `SpinSleeper::sleep`:
`if duration > accuracy { thread_sleep(duration - accuracy) }`.
Returns `some d` when `thread_sleep` is invoked with duration `d`, and
`none` when the native sleep is skipped. -/
def SpinSleeper.nativePortion (s : SpinSleeper) (target : ℕ) : Option ℕ :=
  if s.native_accuracy_ns < target then some (target - s.native_accuracy_ns)
  else none

/-- Index of the first clock reading available to the spin loop of
`SpinSleeper::sleep`.  Reading `0` is `start`; if the native sleep runs, the
clock has advanced to reading `nativeIdx` by the time it returns, otherwise
the spin loop starts checking at reading `1`. -/
def SpinSleeper.spinStart (s : SpinSleeper) (nativeIdx target : ℕ) : ℕ :=
  if (s.nativePortion target).isSome then nativeIdx else 1

/-- The spin loop `while start.elapsed() < duration { thread::yield_now() }`:
the index of the first clock reading at or after `n0` whose elapsed time
(saturating difference from reading `0`) reaches `target`. -/
def spinExit (time : ℕ → ℕ) (n0 target : ℕ)
    (h : ∃ k, n0 ≤ k ∧ target ≤ time k - time 0) : ℕ :=
  Nat.find h

/-- `SpinSleeper::sleep`: the elapsed time `start.elapsed()` observed at the
moment the spin loop exits and the call returns.  `h` states that the clock
eventually reaches the deadline (the monotonic clock is unbounded). -/
def SpinSleeper.sleepElapsed (s : SpinSleeper) (time : ℕ → ℕ)
    (nativeIdx target : ℕ)
    (h : ∃ k, s.spinStart nativeIdx target ≤ k ∧ target ≤ time k - time 0) : ℕ :=
  time (spinExit time (s.spinStart nativeIdx target) target h) - time 0

/-- `F64` seconds input of `SpinSleeper::sleep_s`: a finite rational or NaN. -/
inductive FSeconds where
  | num (q : ℚ)
  | nan
  deriving DecidableEq

/-- `Duration::from_secs_f64` on a finite non-negative value: nanoseconds,
rounded to nearest.  (Exact on every value the claims evaluate it at.) -/
def durationFromSecs (q : ℚ) : ℕ :=
  (round (q * 1000000000) : ℤ).toNat

/-- `SpinSleeper::sleep_s`:
`if seconds > 0.0 { self.sleep(Duration::from_secs_f64(seconds)) }`.
Returns `some d` when `sleep` is called with duration `d` ns, `none` when the
guard fails and the function returns immediately.  `nan > 0.0` is false in
IEEE-754, so NaN falls into the no-op branch. -/
def SpinSleeper.sleep_s (_s : SpinSleeper) (seconds : FSeconds) : Option ℕ :=
  match seconds with
  | .num q => if 0 < q then some (durationFromSecs q) else none
  | .nan => none

/-! ## `Interval` and `MissedTickBehavior` (util/src/interval.rs) -/

/-- `MissedTickBehavior` enum; the `#[default]` variant is `Skip`. -/
inductive MissedTickBehavior where
  | Burst
  | Delay
  | Skip
  deriving DecidableEq, Repr

/-- `u64::MAX + 1`: the bound of the `u128 → u64` conversion in the Skip arm
of `MissedTickBehavior::next_tick`. -/
def u64Size : ℕ := 2 ^ 64

/-- `MissedTickBehavior::next_tick(missed_tick, now, period)`.  The Skip arm
computes `(now - missed_tick).as_nanos() % period.as_nanos()` in `u128` and
converts the remainder to `u64` with `try_into().expect(..)`, which panics
when the remainder does not fit in a `u64`; `none` models that panic. -/
def MissedTickBehavior.next_tick (b : MissedTickBehavior)
    (missed_tick now period : ℕ) : Option ℕ :=
  match b with
  | .Burst => some (missed_tick + period)
  | .Delay => some (now + period)
  | .Skip =>
    if (now - missed_tick) % period < u64Size then
      some (now + period - (now - missed_tick) % period)
    else none

/-- `Interval { next_tick, period, missed_tick_behavior, sleeper }`. -/
structure Interval where
  next_tick : ℕ
  period : ℕ
  missed_tick_behavior : MissedTickBehavior
  sleeper : SpinSleeper
  deriving DecidableEq, Repr

/-- `interval_at(start, period)`: asserts `period > Duration::ZERO` (panics
otherwise, modelled as `none`) and builds the interval with the default
`MissedTickBehavior` (`Skip`) and the default `SpinSleeper`. -/
def interval_at (start period : ℕ) : Option Interval :=
  if 0 < period then
    some ⟨start, period, MissedTickBehavior.Skip, SpinSleeper.default⟩
  else none

/-- `interval(period)`, i.e. `interval_at(Instant::now(), period)`; the
current instant is passed explicitly. -/
def interval (now period : ℕ) : Option Interval :=
  interval_at now period

/-! ## `RateReporter` (util/src/report.rs) -/

/-- `RateReporter { report_period, start, rate_count }`; `rate_count` is a
`u32` in Rust, incremented with `saturating_add`. -/
structure RateReporter where
  report_period : ℕ
  start : ℕ
  rate_count : ℕ
  deriving DecidableEq, Repr

/-- `RateReporter::increment`: `rate_count.saturating_add(1)` on a `u32`. -/
def RateReporter.increment (r : RateReporter) : RateReporter :=
  { r with rate_count := min (r.rate_count + 1) (2 ^ 32 - 1) }

/-- `RateReporter::report` at current instant `now`.  Returns the emitted
report (if any) together with the updated state.  The emitted rate
`f64::from(rate_count) / elapsed.as_secs_f64()` is modelled as the exact
rational `rate_count * 10^9 / elapsed_ns`. -/
def RateReporter.report (r : RateReporter) (now : ℕ) : Option ℚ × RateReporter :=
  let elapsed := now - r.start
  if elapsed < r.report_period then (none, r)
  else
    (some ((r.rate_count : ℚ) * 1000000000 / (elapsed : ℚ)),
     { r with rate_count := 0, start := now })

/-! ## `LoopHelper` (src/loop_helper.rs) -/

/-- The `f64` target rate of `build_with_target_rate` / `set_target_rate`:
a finite rational or IEEE positive infinity. -/
inductive Rate where
  | finite (q : ℚ)
  | infinity
  deriving DecidableEq

/-- `1.0 / target_rate` in `f64`, modelled exactly: `1.0 / inf = 0.0`, and
division of finite values is exact rational division. -/
def Rate.invSecs : Rate → ℚ
  | .finite q => 1 / q
  | .infinity => 0

/-- `LoopHelper` state. -/
structure LoopHelper where
  target_delta : ℕ
  report_interval : ℕ
  sleeper : SpinSleeper
  last_loop_start : ℕ
  last_report : ℕ
  delta_sum : ℕ
  delta_count : ℕ
  deriving DecidableEq, Repr

/-- `LoopHelperBuilder { report_interval, sleeper }`. -/
structure LoopHelperBuilder where
  report_interval : Option ℕ
  sleeper : Option SpinSleeper
  deriving DecidableEq, Repr

/-- `LoopHelperBuilder::build_with_target_rate` at current instant `now`:
`target_delta = Duration::from_secs_f64(1.0 / target_rate)`, report interval
defaults to 1 s, sleeper defaults to `SpinSleeper::default()`. -/
def LoopHelperBuilder.build_with_target_rate (b : LoopHelperBuilder)
    (now : ℕ) (target_rate : Rate) : LoopHelper :=
  { target_delta := durationFromSecs target_rate.invSecs
    report_interval := b.report_interval.getD 1000000000
    sleeper := b.sleeper.getD SpinSleeper.default
    last_loop_start := now
    last_report := now
    delta_sum := 0
    delta_count := 0 }

/-- `LoopHelperBuilder::build_without_target_rate`:
`build_with_target_rate(f64::INFINITY)`. -/
def LoopHelperBuilder.build_without_target_rate (b : LoopHelperBuilder)
    (now : ℕ) : LoopHelper :=
  b.build_with_target_rate now Rate.infinity

/-- `LoopHelper::loop_sleep` at current instant `now`: if
`last_loop_start.elapsed() < target_delta`, the configured `SpinSleeper` is
invoked with the remaining duration (`some remaining`); otherwise the call
returns immediately without invoking the sleeper (`none`). -/
def LoopHelper.loop_sleep (lh : LoopHelper) (now : ℕ) : Option ℕ :=
  let elapsed := now - lh.last_loop_start
  if elapsed < lh.target_delta then some (lh.target_delta - elapsed)
  else none

/-- `LoopHelper::report_rate` at current instant `now`.  Reports only when
`now.duration_since(last_report) > report_interval && delta_count > 0`; the
emitted `f64::from(delta_count) / delta_sum.as_secs_f64()` is modelled as the
exact rational `delta_count * 10^9 / delta_sum_ns`. -/
def LoopHelper.report_rate (lh : LoopHelper) (now : ℕ) : Option ℚ × LoopHelper :=
  if lh.report_interval < now - lh.last_report ∧ 0 < lh.delta_count then
    (some ((lh.delta_count : ℚ) * 1000000000 / (lh.delta_sum : ℚ)),
     { lh with delta_sum := 0, delta_count := 0, last_report := now })
  else (none, lh)

/-! ## Theorems -/

/-- C1: for every requested duration and every configured native accuracy,
`SpinSleeper::sleep` returns only after the elapsed time measured by the
monotonic clock since the call began is at least the requested duration: the
post-native-sleep spin loop exits at the first clock reading whose elapsed
time reaches the target, so the elapsed time at return is `≥ target` and no
earlier reading available to the loop had yet reached the target. -/
theorem sleep_never_undersleeps (s : SpinSleeper) (time : ℕ → ℕ)
    (nativeIdx target : ℕ)
    (h : ∃ k, s.spinStart nativeIdx target ≤ k ∧ target ≤ time k - time 0) :
    target ≤ s.sleepElapsed time nativeIdx target h ∧
      ∀ k, s.spinStart nativeIdx target ≤ k →
        k < spinExit time (s.spinStart nativeIdx target) target h →
          time k - time 0 < target := by
  constructor
  · exact (Nat.find_spec h).2
  · intro k hk hlt
    have hmin := Nat.find_min h hlt
    push_neg at hmin
    exact hmin hk

/-- Witness for C1 at a concrete clock: accuracy 100 ns, the clock ticks
100 ns per reading, the native sleep returns at reading 3, target 250 ns. -/
theorem sleep_never_undersleeps_witness :
    250 ≤ SpinSleeper.sleepElapsed ⟨100⟩ (fun k => 100 * k) 3 250
      ⟨3, by decide⟩ :=
  (sleep_never_undersleeps ⟨100⟩ (fun k => 100 * k) 3 250 ⟨3, by decide⟩).1

/-- C5: the native sleep inside `SpinSleeper::sleep` is invoked exactly when
`target > native_accuracy_ns`, and then with duration
`target - native_accuracy_ns`; when the accuracy (trust margin) is at least
the target it is skipped entirely, and it is never invoked with a zero
duration. -/
theorem nativePortion_spec (s : SpinSleeper) (target : ℕ) :
    (∀ d, s.nativePortion target = some d ↔
        s.native_accuracy_ns < target ∧ d = target - s.native_accuracy_ns) ∧
    (target ≤ s.native_accuracy_ns → s.nativePortion target = none) ∧
    (∀ d, s.nativePortion target = some d → 0 < d) := by
  by_cases h : s.native_accuracy_ns < target
  · refine ⟨fun d => ?_, fun hle => absurd h (by omega), fun d hd => ?_⟩
    · simp only [SpinSleeper.nativePortion, if_pos h, Option.some_inj]
      constructor
      · intro hd
        exact ⟨h, hd.symm⟩
      · intro hd
        exact hd.2.symm
    · simp only [SpinSleeper.nativePortion, if_pos h, Option.some_inj] at hd
      omega
  · refine ⟨fun d => ?_, fun _ => ?_, fun d hd => ?_⟩
    · simp only [SpinSleeper.nativePortion, if_neg h]
      constructor
      · intro hd
        exact absurd hd (by simp)
      · intro hd
        exact absurd hd.1 h
    · simp only [SpinSleeper.nativePortion, if_neg h]
    · simp only [SpinSleeper.nativePortion, if_neg h] at hd
      exact absurd hd (by simp)

/-- Witness for C5: accuracy 100 ns, target 250 ns, native portion 150 ns. -/
theorem nativePortion_spec_witness :
    SpinSleeper.nativePortion ⟨100⟩ 250 = some 150 :=
  ((nativePortion_spec ⟨100⟩ 250).1 150).mpr ⟨by decide, by decide⟩

/-- C10: for every non-positive finite `f64` seconds input, and for NaN,
`SpinSleeper::sleep_s` returns immediately without calling `sleep` (the
`seconds > 0.0` guard fails, so no duration is constructed). -/
theorem sleep_s_nonpositive_noop (s : SpinSleeper) (q : ℚ) (hq : q ≤ 0) :
    s.sleep_s (.num q) = none ∧ s.sleep_s .nan = none := by
  refine ⟨?_, rfl⟩
  simp only [SpinSleeper.sleep_s]
  rw [if_neg (not_lt.mpr hq)]

/-- Witness for C10: the default sleeper and seconds input `-1.5`. -/
theorem sleep_s_nonpositive_noop_witness :
    SpinSleeper.sleep_s ⟨125000⟩ (.num (-3/2)) = none ∧
      SpinSleeper.sleep_s ⟨125000⟩ .nan = none :=
  sleep_s_nonpositive_noop ⟨125000⟩ (-3/2) (by norm_num)

/-- C4: constructing an interval scheduler with a zero period fails at
construction time for every start instant, `interval` delegates to
`interval_at`, and construction with any positive period succeeds. -/
theorem interval_construction_spec (start period : ℕ) :
    ((interval_at start period).isSome ↔ 0 < period) ∧
      interval start period = interval_at start period := by
  refine ⟨?_, rfl⟩
  by_cases h : 0 < period <;> simp [interval_at, h]

/-- Witness for C4: period 20 ns succeeds, period 0 fails. -/
theorem interval_construction_spec_witness :
    (interval_at 7 20).isSome ∧ interval_at 7 0 = none :=
  ⟨(interval_construction_spec 7 20).1.mpr (by decide), by decide⟩

/-- Counterexample for C2 as stated: with `missed = 0`, `now = 2^64` and
`period = 2^64 + 1` (a missed tick with `now > missed` and `period > 0`),
the Skip arm does not yield `now + period - ((now - missed) % period)`: the
remainder `2^64` does not fit in a `u64`, so the code panics instead. -/
theorem next_tick_skip_overflow_cex :
    0 < 2 ^ 64 ∧ 0 < 2 ^ 64 + 1 ∧
      MissedTickBehavior.next_tick .Skip 0 (2 ^ 64) (2 ^ 64 + 1) = none ∧
      MissedTickBehavior.next_tick .Skip 0 (2 ^ 64) (2 ^ 64 + 1) ≠
        some (2 ^ 64 + (2 ^ 64 + 1) - (2 ^ 64 - 0) % (2 ^ 64 + 1)) := by
  refine ⟨by norm_num, by norm_num, ?_, ?_⟩ <;>
    simp [MissedTickBehavior.next_tick, u64Size]

/-- C2 (amended): for every missed tick (`now > missed`, `period > 0`),
Burst yields `missed + period` and Delay yields `now + period`; Skip yields
`now + period - ((now - missed) % period)` whenever that remainder fits in a
`u64` (in particular whenever `period ≤ 2^64` ns), and panics otherwise. -/
theorem next_tick_formulas (missed now period : ℕ)
    (hmn : missed < now) (hp : 0 < period) :
    MissedTickBehavior.next_tick .Burst missed now period =
        some (missed + period) ∧
    MissedTickBehavior.next_tick .Delay missed now period =
        some (now + period) ∧
    ((now - missed) % period < u64Size →
      MissedTickBehavior.next_tick .Skip missed now period =
        some (now + period - (now - missed) % period)) := by
  refine ⟨rfl, rfl, fun hr => ?_⟩
  simp [MissedTickBehavior.next_tick, hr]

/-- Witness for C2 (amended) at `missed = 5`, `now = 12`, `period = 4`. -/
theorem next_tick_formulas_witness :
    MissedTickBehavior.next_tick .Burst 5 12 4 = some 9 ∧
      MissedTickBehavior.next_tick .Delay 5 12 4 = some 16 ∧
      MissedTickBehavior.next_tick .Skip 5 12 4 = some 13 := by
  have h := next_tick_formulas 5 12 4 (by decide) (by decide)
  exact ⟨h.1, h.2.1, h.2.2 (by decide)⟩

/-- Counterexample for C3 as stated: at `missed = 0`, `now = 2^64 + 1`,
`period = 2^64 + 2` the Skip computation is not total (does not saturate):
the remainder `2^64 + 1` does not fit in a `u64`, so the conversion fails
and the code panics. -/
theorem skip_not_total_cex :
    0 < 2 ^ 64 + 2 ∧
      MissedTickBehavior.next_tick .Skip 0 (2 ^ 64 + 1) (2 ^ 64 + 2) = none := by
  refine ⟨by norm_num, ?_⟩
  simp [MissedTickBehavior.next_tick, u64Size]

/-- C3 (amended): for every missed tick with `period > 0`, the Skip
computation succeeds whenever the lateness remainder
`(now - missed) % period` fits in a `u64` (in particular whenever
`period ≤ 2^64` ns, i.e. unless both values span more than about 584 years);
when the remainder does not fit, the code panics rather than saturating. -/
theorem skip_total_when_remainder_fits (missed now period : ℕ)
    (hp : 0 < period) (hfit : (now - missed) % period < u64Size) :
    (MissedTickBehavior.next_tick .Skip missed now period).isSome := by
  simp [MissedTickBehavior.next_tick, hfit]

/-- Witness for C3 (amended) at `missed = 0`, `now = 100`, `period = 7`. -/
theorem skip_total_when_remainder_fits_witness :
    (MissedTickBehavior.next_tick .Skip 0 100 7).isSome :=
  skip_total_when_remainder_fits 0 100 7 (by decide) (by decide)

/-- C6: under the Skip policy, for every missed tick (`now > missed`,
`period > 0`), the computed next deadline is phase-aligned —
`next - missed` is an exact multiple of `period` — and lies in the half-open
window `(now, now + period]`. -/
theorem skip_phase_alignment (missed now period next : ℕ)
    (hmn : missed < now) (hp : 0 < period)
    (h : MissedTickBehavior.next_tick .Skip missed now period = some next) :
    period ∣ next - missed ∧ now < next ∧ next ≤ now + period := by
  simp only [MissedTickBehavior.next_tick] at h
  by_cases hr : (now - missed) % period < u64Size
  · rw [if_pos hr, Option.some_inj] at h
    have h1 : period * ((now - missed) / period) + (now - missed) % period =
        now - missed := Nat.div_add_mod _ _
    have h2 : (now - missed) % period < period := Nat.mod_lt _ hp
    have hq : period * ((now - missed) / period + 1) =
        period * ((now - missed) / period) + period := by ring
    refine ⟨⟨(now - missed) / period + 1, ?_⟩, ?_, ?_⟩
    · rw [hq]
      omega
    · omega
    · omega
  · rw [if_neg hr] at h
    exact absurd h (by simp)

/-- Witness for C6 at `missed = 3`, `now = 10`, `period = 4`, `next = 11`. -/
theorem skip_phase_alignment_witness :
    4 ∣ 11 - 3 ∧ 10 < 11 ∧ 11 ≤ 10 + 4 :=
  skip_phase_alignment 3 10 4 11 (by decide) (by decide) (by decide)

/-- C7: `RateReporter::report` returns `None` exactly when the elapsed time
since the window start is less than `report_period`; otherwise it returns
`Some (count / elapsed)` in events per second and, in the same call, resets
the count to 0 and the window start to the current instant. -/
theorem rateReporter_report_spec (r : RateReporter) (now : ℕ) :
    ((r.report now).1 = none ↔ now - r.start < r.report_period) ∧
    (r.report_period ≤ now - r.start →
      r.report now =
        (some ((r.rate_count : ℚ) * 1000000000 / ((now - r.start : ℕ) : ℚ)),
         { r with rate_count := 0, start := now })) := by
  by_cases h : now - r.start < r.report_period
  · refine ⟨?_, fun hle => absurd hle (by omega)⟩
    simp [RateReporter.report, h]
  · refine ⟨?_, fun _ => ?_⟩ <;> simp [RateReporter.report, h]

/-- Witness for C7: period 1 s, window start 0, 5 events, reported 2 s in. -/
theorem rateReporter_report_spec_witness :
    RateReporter.report ⟨1000000000, 0, 5⟩ 2000000000 =
      (some (((5 : ℕ) : ℚ) * 1000000000 / (((2000000000 - 0 : ℕ)) : ℚ)),
       ⟨1000000000, 2000000000, 0⟩) :=
  (rateReporter_report_spec ⟨1000000000, 0, 5⟩ 2000000000).2 (by decide)

/-- Counterexample for C8 as stated: with `report_interval = 5` ns,
`last_report = 0`, one completed loop (`delta_count = 1`) and `now = 5`,
exactly one report period has elapsed — not fewer — and a loop has
completed, yet `report_rate` returns `None`: the code requires the elapsed
time to strictly exceed the interval. -/
theorem report_rate_boundary_cex :
    (LoopHelper.report_rate ⟨0, 5, ⟨125000⟩, 0, 0, 1000000000, 1⟩ 5).1 =
        none ∧
      ¬((5 : ℕ) - 0 < 5 ∨ (1 : ℕ) = 0) := by
  refine ⟨?_, by decide⟩
  simp [LoopHelper.report_rate]

/-- C8 (amended): `LoopHelper::report_rate` returns `None` exactly when the
elapsed time since the last report is at most `report_interval` (strictly
more than one period must have elapsed) or zero loops have completed in the
window (`delta_count = 0`); in all other cases it returns the windowed mean
rate `delta_count / delta_sum` and resets `delta_sum`, `delta_count` and the
report anchor. -/
theorem loopHelper_report_rate_spec (lh : LoopHelper) (now : ℕ) :
    ((lh.report_rate now).1 = none ↔
      now - lh.last_report ≤ lh.report_interval ∨ lh.delta_count = 0) ∧
    (lh.report_interval < now - lh.last_report → 0 < lh.delta_count →
      lh.report_rate now =
        (some ((lh.delta_count : ℚ) * 1000000000 / (lh.delta_sum : ℚ)),
         { lh with delta_sum := 0, delta_count := 0, last_report := now })) := by
  by_cases h : lh.report_interval < now - lh.last_report ∧ 0 < lh.delta_count
  · refine ⟨?_, fun _ _ => ?_⟩ <;> simp [LoopHelper.report_rate, h]
    omega
  · refine ⟨?_, fun h1 h2 => absurd ⟨h1, h2⟩ h⟩
    simp [LoopHelper.report_rate, h]
    omega

/-- Witness for C8 (amended): interval 5 ns, last report at 0, 4 loops
summing 2 s, queried at `now = 6`. -/
theorem loopHelper_report_rate_spec_witness :
    LoopHelper.report_rate ⟨0, 5, ⟨125000⟩, 0, 0, 2000000000, 4⟩ 6 =
      (some (((4 : ℕ) : ℚ) * 1000000000 / (((2000000000 : ℕ)) : ℚ)),
       ⟨0, 5, ⟨125000⟩, 0, 6, 0, 0⟩) :=
  (loopHelper_report_rate_spec ⟨0, 5, ⟨125000⟩, 0, 0, 2000000000, 4⟩ 6).2
    (by decide) (by decide)

/-- C9: a `LoopHelper` built without a target rate (target rate `+∞`) has
`target_delta` equal to the zero duration, and consequently every call to
`loop_sleep` returns immediately without invoking the sleeper, regardless of
how much time has elapsed since `loop_start`. -/
theorem build_without_target_rate_unthrottled (b : LoopHelperBuilder)
    (now : ℕ) :
    (b.build_without_target_rate now).target_delta = 0 ∧
      ∀ now2, (b.build_without_target_rate now).loop_sleep now2 = none := by
  have hd : (b.build_without_target_rate now).target_delta = 0 := by
    simp [LoopHelperBuilder.build_without_target_rate,
      LoopHelperBuilder.build_with_target_rate, Rate.invSecs, durationFromSecs]
  exact ⟨hd, fun now2 => by simp [LoopHelper.loop_sleep, hd]⟩

end SpinSleep
